import Mathlib

/-!
Shallow embedding of the COMChip battery-status frame decoder
(`src/com3-gm.c`, with the identical checksum routine also appearing in
`src/com-5cg.c` as `calculate_checksum` and in `src/com3-cg.c` as
`ODM_com_checksum_calc`).

Buffers of C `uint8_t` are modelled as `List Nat`; theorems that depend on
the byte range carry the hypothesis that every element is below 256.  The C
`uint16_t` accumulator is modelled as a `Nat` reduced modulo 65536 exactly
where the C type would wrap.
-/

namespace Basics

/-! Constants from com3-gm.c. -/

def COMCHIP_SYNC_BYTE : Nat := 0x55

def COMCHIP_CID_GET_STATUS_RESP : Nat := 0x81

def COMCHIP_STATUS_FRAME_LEN : Nat := 7

def STATUS_BIT_BATTERY_ERROR : Nat := 1 <<< 7

def STATUS_BIT_UNDER_VOLTAGE : Nat := 1 <<< 6

def STATUS_BIT_NOT_SUPPORTED : Nat := 1 <<< 5

/-- One iteration of the loop body of `calculate_checksum` in com3-gm.c
(lines 25-33): `tmp += data_buffer[i]` on a `uint16_t` accumulator (hence
the reduction modulo 65536, which the C type performs on the store), then
`if (tmp >= 256u) tmp -= 255u;`. -/
def checksum_step (tmp b : Nat) : Nat :=
  let t := (tmp + b) % 65536
  if 256 ≤ t then t - 255 else t

/-- The accumulator value after the `for` loop of `calculate_checksum` has
consumed all of `data`, starting from the seed `cid`. -/
def checksum_acc (cid : Nat) (data : List Nat) : Nat :=
  data.foldl checksum_step cid

/-- `calculate_checksum` from com3-gm.c lines 21-36 (identical in
com-5cg.c lines 31-45): seed the `uint16_t` accumulator with the `uint8_t`
cid (modelled by the modulo-65536 injection, a no-op for byte inputs), run
the loop, then `tmp = (~tmp) & 0x00FFu`, which for `tmp < 65536` equals
`(65535 - tmp) % 256`. -/
def calculate_checksum (cid : Nat) (data : List Nat) : Nat :=
  (65535 - checksum_acc (cid % 65536) data) % 256

/-- Parsed output structure `BatteryStatusData` of com3-gm.c. -/
structure BatteryStatusData where
  battery_voltage_mV : Nat
  has_battery_error : Bool
  is_under_voltage : Bool
  is_battery_supported : Bool
deriving Repr, DecidableEq

/-- One error value per `return false` branch of
`process_comchip_status_packet` in com3-gm.c, in source order: frame-size
check, sync-byte check, CID check, checksum check. -/
inductive FrameError where
  | invalidLength
  | invalidSync
  | invalidCid
  | checksumMismatch
deriving Repr, DecidableEq

/-- Observation channel for the decoder: `reads` lists, in order, the
indices at which `process_comchip_status_packet` dereferences
`received_packet` on the taken path, and `checksumComputed` records whether
`calculate_checksum` was invoked. -/
structure DecodeTrace where
  reads : List Nat
  checksumComputed : Bool
deriving Repr, DecidableEq

/-- `process_comchip_status_packet` from com3-gm.c lines 51-116, with its
buffer accesses instrumented.  The first component is the function's
result: the C original returns `false` after printing one diagnostic (here
the corresponding `FrameError`), or fills `*out_data` and returns `true`
(here `Except.ok`).  Buffer reads use `List.getD _ _ 0`; the trace records
each read index: `received_packet[0]` (sync check), `received_packet[1]`
(CID check and again as the checksum call's first argument), indices 2-5
(the checksum data slice `&received_packet[2]` of length
`COMCHIP_STATUS_FRAME_LEN - 3 = 4`), `packet_len - 1` (received checksum),
and 2, 3, 4 again (status byte and the two voltage bytes).  The C locals
`calculated_cs`, `received_cs`, `status_byte`, `voltage_high_byte` and
`voltage_low_byte` are inlined at their use sites. -/
def process_comchip_status_packet_instr (received_packet : List Nat) :
    Except FrameError BatteryStatusData × DecodeTrace :=
  if received_packet.length ≠ COMCHIP_STATUS_FRAME_LEN then
    (.error .invalidLength, ⟨[], false⟩)
  else if received_packet.getD 0 0 ≠ COMCHIP_SYNC_BYTE then
    (.error .invalidSync, ⟨[0], false⟩)
  else if received_packet.getD 1 0 ≠ COMCHIP_CID_GET_STATUS_RESP then
    (.error .invalidCid, ⟨[0, 1], false⟩)
  else if calculate_checksum (received_packet.getD 1 0)
      [received_packet.getD 2 0, received_packet.getD 3 0,
       received_packet.getD 4 0, received_packet.getD 5 0] ≠
      received_packet.getD (received_packet.length - 1) 0 then
    (.error .checksumMismatch,
     ⟨[0, 1, 1, 2, 3, 4, 5, received_packet.length - 1], true⟩)
  else
    (.ok
      { battery_voltage_mV :=
          ((received_packet.getD 3 0 <<< 8) ||| received_packet.getD 4 0) %
            65536
        has_battery_error :=
          (received_packet.getD 2 0 &&& STATUS_BIT_BATTERY_ERROR) != 0
        is_under_voltage :=
          (received_packet.getD 2 0 &&& STATUS_BIT_UNDER_VOLTAGE) != 0
        is_battery_supported :=
          (received_packet.getD 2 0 &&& STATUS_BIT_NOT_SUPPORTED) == 0 },
     ⟨[0, 1, 1, 2, 3, 4, 5, received_packet.length - 1, 2, 3, 4], true⟩)

/-- The decoder's result, forgetting the instrumentation (the spec's
`decodeFrame` for the 7-byte layout). -/
def decodeFrame (raw : List Nat) : Except FrameError BatteryStatusData :=
  (process_comchip_status_packet_instr raw).1

/-- The C calling convention of `process_comchip_status_packet`: the caller
passes `*out_data`; on failure the function returns `false` having never
written through `out_data`, on success it returns `true` with every field
of `*out_data` assigned. -/
def process_comchip_status_packet (received_packet : List Nat)
    (out_data : BatteryStatusData) : Bool × BatteryStatusData :=
  match (process_comchip_status_packet_instr received_packet).1 with
  | .error _ => (false, out_data)
  | .ok s => (true, s)

/-- The `for` loop of `ODM_com_checksum_calc` in com3-cg.c lines 17-26,
modelled with the buffer threaded through as state: the C routine takes the
buffer through a `uint8_t p_data[]` parameter and only ever reads it, so
the state component passes through unchanged. -/
def ODM_com_checksum_calc_loop (tmp i len : Nat) (p_data : List Nat) :
    Nat × List Nat :=
  if i < len then
    ODM_com_checksum_calc_loop (checksum_step tmp (p_data.getD i 0))
      (i + 1) len p_data
  else
    (tmp, p_data)
termination_by len - i
decreasing_by omega

/-- `ODM_com_checksum_calc` from com3-cg.c lines 17-26, returning both the
checksum byte and the (caller-visible) buffer after the call. -/
def ODM_com_checksum_calc (CID : Nat) (p_data : List Nat) (len : Nat) :
    Nat × List Nat :=
  ((65535 - (ODM_com_checksum_calc_loop (CID % 65536) 0 len p_data).1) % 256,
   (ODM_com_checksum_calc_loop (CID % 65536) 0 len p_data).2)

/-- The per-byte update of the spec's reference algorithm for
`computeChecksum` (spec section 4.1, step 2): add the byte to the
accumulator and, if the accumulator is at least 256, subtract 255. -/
def spec_step (a b : Nat) : Nat :=
  if 256 ≤ a + b then a + b - 255 else a + b

/-- Modelled from the spec: the reference description of `computeChecksum`
(spec section 4.1, steps 1-4) — start a 16-bit accumulator at the command
id, fold `spec_step` over the data bytes in order, then take the bitwise
complement of the accumulator masked to the low 8 bits, which on the low
byte of a natural number is `255 - acc % 256`. -/
def computeChecksumSpec (commandId : Nat) (data : List Nat) : Nat :=
  255 - (data.foldl spec_step commandId) % 256

/-! Helper lemmas shared by the claim theorems. -/

/-- When the sum fits the 16-bit accumulator, the source's step agrees with
the spec's step: the modulo-65536 store is a no-op. -/
lemma checksum_step_eq_spec_step (a b : Nat) (h : a + b < 65536) :
    checksum_step a b = spec_step a b := by
  simp [checksum_step, spec_step, Nat.mod_eq_of_lt h]

/-- A single step keeps a byte-bounded accumulator byte-bounded. -/
lemma checksum_step_lt (a b : Nat) (ha : a < 256) (hb : b < 256) :
    checksum_step a b < 256 := by
  rw [checksum_step_eq_spec_step a b (by omega)]
  unfold spec_step
  split <;> omega

/-- Folding the source step over byte data from a byte seed agrees with
folding the spec step, and the result stays below 256. -/
lemma checksum_foldl_spec (data : List Nat) : ∀ a : Nat, a < 256 →
    (∀ b ∈ data, b < 256) →
    data.foldl checksum_step a = data.foldl spec_step a ∧
    data.foldl spec_step a < 256 := by
  induction data with
  | nil => exact fun a ha _ => ⟨rfl, ha⟩
  | cons x xs ih =>
    intro a ha hb
    have hx : x < 256 := hb x (List.mem_cons_self x xs)
    have hstep : checksum_step a x = spec_step a x :=
      checksum_step_eq_spec_step a x (by omega)
    have hlt : spec_step a x < 256 := by
      rw [← hstep]; exact checksum_step_lt a x ha hx
    have hxs : ∀ b ∈ xs, b < 256 := fun b h => hb b (List.mem_cons_of_mem x h)
    simpa only [List.foldl_cons, hstep] using ih (spec_step a x) hlt hxs

/-- The accumulator after the whole loop equals the spec fold and is below
256, for byte inputs. -/
lemma checksum_acc_eq_spec (cid : Nat) (data : List Nat) (hcid : cid < 256)
    (hdata : ∀ b ∈ data, b < 256) :
    checksum_acc cid data = data.foldl spec_step cid ∧
    checksum_acc cid data < 256 := by
  obtain ⟨heq, hlt⟩ := checksum_foldl_spec data cid hcid hdata
  exact ⟨heq, by rw [checksum_acc, heq]; exact hlt⟩

/-- Every `getD _ _ 0` lookup in a buffer of bytes is below 256. -/
lemma getD_lt_256 (raw : List Nat) (hbytes : ∀ b ∈ raw, b < 256) (i : Nat) :
    raw.getD i 0 < 256 := by
  induction raw generalizing i with
  | nil => simp
  | cons a l ih =>
    cases i with
    | zero => exact hbytes a (List.mem_cons_self a l)
    | succ n =>
      rw [List.getD_cons_succ]
      exact ih (fun b h => hbytes b (List.mem_cons_of_mem a h)) n

/-- Testing a bit with the C idiom `(x & (1 << i)) != 0`. -/
lemma and_shift_bne (x i : Nat) : ((x &&& (1 <<< i)) != 0) = x.testBit i := by
  rw [Nat.one_shiftLeft, Nat.and_two_pow]
  cases h : x.testBit i <;> simp [(Nat.two_pow_pos i).ne']

/-- Testing that a bit is clear with the C idiom `(x & (1 << i)) == 0`. -/
lemma and_shift_beq (x i : Nat) : ((x &&& (1 <<< i)) == 0) = !x.testBit i := by
  rw [Nat.one_shiftLeft, Nat.and_two_pow]
  cases h : x.testBit i <;> simp [(Nat.two_pow_pos i).ne']

/-- Branch equation: a frame of the wrong length is rejected at step 1 with
no buffer access. -/
lemma instr_invalidLength (raw : List Nat)
    (h : raw.length ≠ COMCHIP_STATUS_FRAME_LEN) :
    process_comchip_status_packet_instr raw =
      (.error .invalidLength, ⟨[], false⟩) := by
  unfold process_comchip_status_packet_instr
  rw [if_pos h]

/-- Branch equation: a correct-length frame with a wrong sync byte is
rejected at step 2, having read only index 0. -/
lemma instr_invalidSync (raw : List Nat)
    (hlen : raw.length = COMCHIP_STATUS_FRAME_LEN)
    (h : raw.getD 0 0 ≠ COMCHIP_SYNC_BYTE) :
    process_comchip_status_packet_instr raw =
      (.error .invalidSync, ⟨[0], false⟩) := by
  unfold process_comchip_status_packet_instr
  rw [if_neg (not_ne_iff.mpr hlen), if_pos h]

/-- Branch equation: rejection at the CID check, having read indices 0, 1. -/
lemma instr_invalidCid (raw : List Nat)
    (hlen : raw.length = COMCHIP_STATUS_FRAME_LEN)
    (hsync : raw.getD 0 0 = COMCHIP_SYNC_BYTE)
    (h : raw.getD 1 0 ≠ COMCHIP_CID_GET_STATUS_RESP) :
    process_comchip_status_packet_instr raw =
      (.error .invalidCid, ⟨[0, 1], false⟩) := by
  unfold process_comchip_status_packet_instr
  rw [if_neg (not_ne_iff.mpr hlen), if_neg (not_ne_iff.mpr hsync), if_pos h]

/-- Branch equation: rejection at the checksum comparison. -/
lemma instr_checksumMismatch (raw : List Nat)
    (hlen : raw.length = COMCHIP_STATUS_FRAME_LEN)
    (hsync : raw.getD 0 0 = COMCHIP_SYNC_BYTE)
    (hcid : raw.getD 1 0 = COMCHIP_CID_GET_STATUS_RESP)
    (h : calculate_checksum (raw.getD 1 0)
        [raw.getD 2 0, raw.getD 3 0, raw.getD 4 0, raw.getD 5 0] ≠
        raw.getD (raw.length - 1) 0) :
    process_comchip_status_packet_instr raw =
      (.error .checksumMismatch,
       ⟨[0, 1, 1, 2, 3, 4, 5, raw.length - 1], true⟩) := by
  unfold process_comchip_status_packet_instr
  rw [if_neg (not_ne_iff.mpr hlen), if_neg (not_ne_iff.mpr hsync),
    if_neg (not_ne_iff.mpr hcid), if_pos h]

/-- Branch equation: a frame passing all four checks decodes to the fully
populated structure. -/
lemma instr_ok (raw : List Nat)
    (hlen : raw.length = COMCHIP_STATUS_FRAME_LEN)
    (hsync : raw.getD 0 0 = COMCHIP_SYNC_BYTE)
    (hcid : raw.getD 1 0 = COMCHIP_CID_GET_STATUS_RESP)
    (h : calculate_checksum (raw.getD 1 0)
        [raw.getD 2 0, raw.getD 3 0, raw.getD 4 0, raw.getD 5 0] =
        raw.getD (raw.length - 1) 0) :
    process_comchip_status_packet_instr raw =
      (.ok
        { battery_voltage_mV :=
            ((raw.getD 3 0 <<< 8) ||| raw.getD 4 0) % 65536
          has_battery_error :=
            (raw.getD 2 0 &&& STATUS_BIT_BATTERY_ERROR) != 0
          is_under_voltage :=
            (raw.getD 2 0 &&& STATUS_BIT_UNDER_VOLTAGE) != 0
          is_battery_supported :=
            (raw.getD 2 0 &&& STATUS_BIT_NOT_SUPPORTED) == 0 },
       ⟨[0, 1, 1, 2, 3, 4, 5, raw.length - 1, 2, 3, 4], true⟩) := by
  unfold process_comchip_status_packet_instr
  rw [if_neg (not_ne_iff.mpr hlen), if_neg (not_ne_iff.mpr hsync),
    if_neg (not_ne_iff.mpr hcid), if_neg (not_ne_iff.mpr h)]

/-- The loop of the state-threading checksum returns its buffer unchanged:
the routine only ever reads `p_data`. -/
theorem ODM_loop_preserves_buffer (tmp i len : Nat) (p_data : List Nat) :
    (ODM_com_checksum_calc_loop tmp i len p_data).2 = p_data := by
  unfold ODM_com_checksum_calc_loop
  split
  next h => exact ODM_loop_preserves_buffer _ _ _ _
  next h => rfl
termination_by len - i
decreasing_by omega

/-- Unfolding helper: the wrapper leaves the caller's structure untouched on
any error result of the instrumented decoder. -/
lemma process_of_error (raw : List Nat) (out : BatteryStatusData)
    (e : FrameError) (tr : DecodeTrace)
    (h : process_comchip_status_packet_instr raw = (Except.error e, tr)) :
    process_comchip_status_packet raw out = (false, out) := by
  unfold process_comchip_status_packet
  rw [h]

/-- Unfolding helper: the wrapper returns the decoded structure on success. -/
lemma process_of_ok (raw : List Nat) (out s : BatteryStatusData)
    (tr : DecodeTrace)
    (h : process_comchip_status_packet_instr raw = (Except.ok s, tr)) :
    process_comchip_status_packet raw out = (true, s) := by
  unfold process_comchip_status_packet
  rw [h]

/-- Unfolding helper for the result projection. -/
lemma decodeFrame_eq (raw : List Nat)
    (r : Except FrameError BatteryStatusData) (tr : DecodeTrace)
    (h : process_comchip_status_packet_instr raw = (r, tr)) :
    decodeFrame raw = r := by
  unfold decodeFrame
  rw [h]

/-! Claim theorems. -/

/-- Claim C1: `computeChecksum(commandId, data)` equals the spec's reference
definition — seed a 16-bit accumulator with the command id, add each data
byte in order subtracting 255 whenever the accumulator reaches 256, and
finally return the complement of the accumulator masked to the low 8 bits —
for every command-id byte and every byte sequence. -/
theorem calculate_checksum_eq_spec (cid : Nat) (data : List Nat)
    (hcid : cid < 256) (hdata : ∀ b ∈ data, b < 256) :
    calculate_checksum cid data = computeChecksumSpec cid data := by
  obtain ⟨heq, hlt⟩ := checksum_acc_eq_spec cid data hcid hdata
  unfold calculate_checksum computeChecksumSpec
  rw [Nat.mod_eq_of_lt (show cid < 65536 by omega), heq]
  have hlt' : data.foldl spec_step cid < 256 := heq ▸ hlt
  omega

/-- Witness for C1 at the command id 0x81 and data [0x00, 0x96, 0xFE]. -/
theorem calculate_checksum_eq_spec_witness :
    calculate_checksum 0x81 [0x00, 0x96, 0xFE] =
      computeChecksumSpec 0x81 [0x00, 0x96, 0xFE] :=
  calculate_checksum_eq_spec 0x81 [0x00, 0x96, 0xFE] (by decide) (by decide)

/-- Claim C2: for every input buffer and every prior caller structure, the
decoder either succeeds — and then the buffer passed the length, sync-byte
and checksum checks and the caller receives the fully populated result — or
returns exactly one error value with the caller-visible structure left
exactly as it was. -/
theorem decodeFrame_result_dichotomy (raw : List Nat)
    (out : BatteryStatusData) :
    (∃ s, decodeFrame raw = Except.ok s ∧
       raw.length = COMCHIP_STATUS_FRAME_LEN ∧
       raw.getD 0 0 = COMCHIP_SYNC_BYTE ∧
       calculate_checksum (raw.getD 1 0)
         [raw.getD 2 0, raw.getD 3 0, raw.getD 4 0, raw.getD 5 0] =
         raw.getD (raw.length - 1) 0 ∧
       process_comchip_status_packet raw out = (true, s)) ∨
    (∃ e, decodeFrame raw = Except.error e ∧
       process_comchip_status_packet raw out = (false, out)) := by
  by_cases hlen : raw.length = COMCHIP_STATUS_FRAME_LEN
  · by_cases hsync : raw.getD 0 0 = COMCHIP_SYNC_BYTE
    · by_cases hcid : raw.getD 1 0 = COMCHIP_CID_GET_STATUS_RESP
      · by_cases hcs : calculate_checksum (raw.getD 1 0)
            [raw.getD 2 0, raw.getD 3 0, raw.getD 4 0, raw.getD 5 0] =
            raw.getD (raw.length - 1) 0
        · left
          exact ⟨_, decodeFrame_eq raw _ _ (instr_ok raw hlen hsync hcid hcs),
            hlen, hsync, hcs,
            process_of_ok raw out _ _ (instr_ok raw hlen hsync hcid hcs)⟩
        · right
          exact ⟨FrameError.checksumMismatch,
            decodeFrame_eq raw _ _
              (instr_checksumMismatch raw hlen hsync hcid hcs),
            process_of_error raw out _ _
              (instr_checksumMismatch raw hlen hsync hcid hcs)⟩
      · right
        exact ⟨FrameError.invalidCid,
          decodeFrame_eq raw _ _ (instr_invalidCid raw hlen hsync hcid),
          process_of_error raw out _ _ (instr_invalidCid raw hlen hsync hcid)⟩
    · right
      exact ⟨FrameError.invalidSync,
        decodeFrame_eq raw _ _ (instr_invalidSync raw hlen hsync),
        process_of_error raw out _ _ (instr_invalidSync raw hlen hsync)⟩
  · right
    exact ⟨FrameError.invalidLength,
      decodeFrame_eq raw _ _ (instr_invalidLength raw hlen),
      process_of_error raw out _ _ (instr_invalidLength raw hlen)⟩

/-- Counterexample to claim C3: the spec's known vector is wrong — the
source algorithm maps (0x81, [0x00, 0x96, 0xFE]) to 0xE8, not 0x3F. -/
theorem calculate_checksum_known_vector_ne_0x3F :
    calculate_checksum 0x81 [0x00, 0x96, 0xFE] ≠ 0x3F := by decide

/-- Claim C3 as amended: `computeChecksum(0x81, [0x00, 0x96, 0xFE])` equals
0xE8 (the accumulator runs 0x81, 0x81, 0x18, 0x17 with one subtraction of
255 per overflow, and the complement of 0x17 masked to a byte is 0xE8). -/
theorem calculate_checksum_known_vector :
    calculate_checksum 0x81 [0x00, 0x96, 0xFE] = 0xE8 := by decide

/-- Counterexample to claim C4: the buffer whose trailing byte is the
spec's checksum 0x3F is rejected with a checksum mismatch, so it does not
decode to the claimed structure. -/
theorem decodeFrame_sample_0x3F_rejected :
    decodeFrame [0x55, 0x81, 0x00, 0x96, 0xFE, 0x00, 0x3F] =
      Except.error FrameError.checksumMismatch ∧
    decodeFrame [0x55, 0x81, 0x00, 0x96, 0xFE, 0x00, 0x3F] ≠
      Except.ok ⟨38654, false, false, true⟩ := by
  refine ⟨rfl, fun h => ?_⟩
  rw [show decodeFrame [0x55, 0x81, 0x00, 0x96, 0xFE, 0x00, 0x3F] =
    Except.error FrameError.checksumMismatch from rfl] at h
  exact Except.noConfusion h

/-- Claim C4 as amended: with the trailing checksum byte the algorithm
actually produces (0xE8), the 7-byte decode succeeds and yields
voltage 38654 millivolts (0x96FE), no error, no under-voltage, and a
supported battery. -/
theorem decodeFrame_sample_0xE8_ok :
    decodeFrame [0x55, 0x81, 0x00, 0x96, 0xFE, 0x00, 0xE8] =
      Except.ok ⟨38654, false, false, true⟩ := by rfl

/-- Claim C5: any 7-byte buffer of bytes that decodes successfully yields
voltage `(raw[3] << 8) | raw[4]`, the error flag from bit 7 of `raw[2]`,
the under-voltage flag from bit 6 of `raw[2]`, and the supported flag from
bit 5 of `raw[2]` being clear. -/
theorem decodeFrame_field_extraction (raw : List Nat) (s : BatteryStatusData)
    (hbytes : ∀ b ∈ raw, b < 256)
    (hok : decodeFrame raw = Except.ok s) :
    s.battery_voltage_mV = (raw.getD 3 0 <<< 8) ||| raw.getD 4 0 ∧
    s.has_battery_error = (raw.getD 2 0).testBit 7 ∧
    s.is_under_voltage = (raw.getD 2 0).testBit 6 ∧
    s.is_battery_supported = !(raw.getD 2 0).testBit 5 := by
  unfold decodeFrame at hok
  by_cases hlen : raw.length = COMCHIP_STATUS_FRAME_LEN
  · by_cases hsync : raw.getD 0 0 = COMCHIP_SYNC_BYTE
    · by_cases hcid : raw.getD 1 0 = COMCHIP_CID_GET_STATUS_RESP
      · by_cases hcs : calculate_checksum (raw.getD 1 0)
            [raw.getD 2 0, raw.getD 3 0, raw.getD 4 0, raw.getD 5 0] =
            raw.getD (raw.length - 1) 0
        · rw [instr_ok raw hlen hsync hcid hcs] at hok
          dsimp only at hok
          rw [Except.ok.injEq] at hok
          subst hok
          refine ⟨?_, ?_, ?_, ?_⟩
          · have h3 : raw.getD 3 0 < 256 := getD_lt_256 raw hbytes 3
            have h4 : raw.getD 4 0 < 256 := getD_lt_256 raw hbytes 4
            have hx : raw.getD 3 0 <<< 8 < 2 ^ 16 := by
              rw [Nat.shiftLeft_eq]
              have h8 : (2 : Nat) ^ 8 = 256 := by norm_num
              have h16 : (2 : Nat) ^ 16 = 65536 := by norm_num
              rw [h8, h16]
              omega
            have hy : raw.getD 4 0 < 2 ^ 16 := lt_trans h4 (by norm_num)
            have hor := Nat.or_lt_two_pow hx hy
            exact Nat.mod_eq_of_lt (lt_of_lt_of_eq hor (by norm_num))
          · exact and_shift_bne (raw.getD 2 0) 7
          · exact and_shift_bne (raw.getD 2 0) 6
          · exact and_shift_beq (raw.getD 2 0) 5
        · rw [instr_checksumMismatch raw hlen hsync hcid hcs] at hok
          simp at hok
      · rw [instr_invalidCid raw hlen hsync hcid] at hok
        simp at hok
    · rw [instr_invalidSync raw hlen hsync] at hok
      simp at hok
  · rw [instr_invalidLength raw hlen] at hok
    simp at hok

/-- Witness for C5 at the accepted sample frame ending in 0xE8. -/
theorem decodeFrame_field_extraction_witness :
    (⟨38654, false, false, true⟩ : BatteryStatusData).battery_voltage_mV =
      (([0x55, 0x81, 0x00, 0x96, 0xFE, 0x00, 0xE8].getD 3 0 <<< 8) |||
        [0x55, 0x81, 0x00, 0x96, 0xFE, 0x00, 0xE8].getD 4 0) ∧
    (⟨38654, false, false, true⟩ : BatteryStatusData).has_battery_error =
      ([0x55, 0x81, 0x00, 0x96, 0xFE, 0x00, 0xE8].getD 2 0).testBit 7 ∧
    (⟨38654, false, false, true⟩ : BatteryStatusData).is_under_voltage =
      ([0x55, 0x81, 0x00, 0x96, 0xFE, 0x00, 0xE8].getD 2 0).testBit 6 ∧
    (⟨38654, false, false, true⟩ : BatteryStatusData).is_battery_supported =
      !([0x55, 0x81, 0x00, 0x96, 0xFE, 0x00, 0xE8].getD 2 0).testBit 5 :=
  decodeFrame_field_extraction [0x55, 0x81, 0x00, 0x96, 0xFE, 0x00, 0xE8]
    ⟨38654, false, false, true⟩ (by decide) (by rfl)

/-- Claim C6: every buffer whose length is not the configured frame length
is rejected as `invalidLength` with an empty read trace — no byte of the
buffer is examined. -/
theorem decodeFrame_invalidLength_no_reads (raw : List Nat)
    (h : raw.length ≠ COMCHIP_STATUS_FRAME_LEN) :
    decodeFrame raw = Except.error FrameError.invalidLength ∧
    (process_comchip_status_packet_instr raw).2 = ⟨[], false⟩ := by
  exact ⟨decodeFrame_eq raw _ _ (instr_invalidLength raw h),
    by rw [instr_invalidLength raw h]⟩

/-- Witness for C6 at the empty buffer. -/
theorem decodeFrame_invalidLength_no_reads_witness :
    decodeFrame [] = Except.error FrameError.invalidLength ∧
    (process_comchip_status_packet_instr []).2 = ⟨[], false⟩ :=
  decodeFrame_invalidLength_no_reads [] (by decide)

/-- Claim C7: every correct-length buffer whose first byte is not 0x55 is
rejected as `invalidSync` and the checksum computation is never invoked. -/
theorem decodeFrame_invalidSync_no_checksum (raw : List Nat)
    (hlen : raw.length = COMCHIP_STATUS_FRAME_LEN)
    (hsync : raw.getD 0 0 ≠ COMCHIP_SYNC_BYTE) :
    decodeFrame raw = Except.error FrameError.invalidSync ∧
    (process_comchip_status_packet_instr raw).2.checksumComputed = false := by
  exact ⟨decodeFrame_eq raw _ _ (instr_invalidSync raw hlen hsync),
    by rw [instr_invalidSync raw hlen hsync]⟩

/-- Witness for C7 at the all-zero 7-byte buffer. -/
theorem decodeFrame_invalidSync_no_checksum_witness :
    decodeFrame [0, 0, 0, 0, 0, 0, 0] = Except.error FrameError.invalidSync ∧
    (process_comchip_status_packet_instr
      [0, 0, 0, 0, 0, 0, 0]).2.checksumComputed = false :=
  decodeFrame_invalidSync_no_checksum [0, 0, 0, 0, 0, 0, 0]
    (by decide) (by decide)

/-- Claim C8: the checksum routine is deterministic and pure — two calls on
identical command id and identical buffer contents return identical
results, and the caller-visible buffer after the call is the buffer that
was passed in. -/
theorem ODM_com_checksum_calc_pure (cid1 cid2 : Nat) (d1 d2 : List Nat)
    (len : Nat) (hc : cid1 = cid2) (hd : d1 = d2) :
    ODM_com_checksum_calc cid1 d1 len = ODM_com_checksum_calc cid2 d2 len ∧
    (ODM_com_checksum_calc cid1 d1 len).2 = d1 := by
  subst hc
  subst hd
  exact ⟨rfl, ODM_loop_preserves_buffer (cid1 % 65536) 0 len d1⟩

/-- Witness for C8 at the com3-cg.c sample call. -/
theorem ODM_com_checksum_calc_pure_witness :
    ODM_com_checksum_calc 0x81 [0x00, 0x6D, 0x60] 3 =
      ODM_com_checksum_calc 0x81 [0x00, 0x6D, 0x60] 3 ∧
    (ODM_com_checksum_calc 0x81 [0x00, 0x6D, 0x60] 3).2 =
      [0x00, 0x6D, 0x60] :=
  ODM_com_checksum_calc_pure 0x81 0x81 [0x00, 0x6D, 0x60] [0x00, 0x6D, 0x60]
    3 rfl rfl

/-- Claim C9: for a byte seed and byte data, the checksum accumulator is
below 256 after every loop iteration (every prefix of the data), so one
subtraction of 255 per added byte suffices and the complemented value is
always below 256. -/
theorem checksum_acc_lt_256 (cid : Nat) (data : List Nat)
    (hcid : cid < 256) (hdata : ∀ b ∈ data, b < 256) (i : Nat) :
    checksum_acc cid (data.take i) < 256 := by
  have h : ∀ b ∈ data.take i, b < 256 :=
    fun b hb => hdata b (List.mem_of_mem_take hb)
  exact (checksum_acc_eq_spec cid (data.take i) hcid h).2

/-- Witness for C9 after two iterations on the sample data. -/
theorem checksum_acc_lt_256_witness :
    checksum_acc 0x81 ([0x00, 0x96, 0xFE].take 2) < 256 :=
  checksum_acc_lt_256 0x81 [0x00, 0x96, 0xFE] (by decide) (by decide) 2

/-- Claim C10: once a buffer has the accepted length 7, every buffer index
in the decoder's read trace — sync byte, command id twice, the checksum
slice 2-5, the trailing checksum byte, and the status and voltage bytes —
is at most 6, so no out-of-bounds access is reachable. -/
theorem decode_reads_in_bounds (raw : List Nat)
    (hlen : raw.length = COMCHIP_STATUS_FRAME_LEN) :
    ∀ i ∈ (process_comchip_status_packet_instr raw).2.reads, i ≤ 6 := by
  have hlen7 : raw.length = 7 := hlen
  by_cases hsync : raw.getD 0 0 = COMCHIP_SYNC_BYTE
  · by_cases hcid : raw.getD 1 0 = COMCHIP_CID_GET_STATUS_RESP
    · by_cases hcs : calculate_checksum (raw.getD 1 0)
          [raw.getD 2 0, raw.getD 3 0, raw.getD 4 0, raw.getD 5 0] =
          raw.getD (raw.length - 1) 0
      · rw [instr_ok raw hlen hsync hcid hcs, hlen7]
        intro i hi
        simp at hi
        omega
      · rw [instr_checksumMismatch raw hlen hsync hcid hcs, hlen7]
        intro i hi
        simp at hi
        omega
    · rw [instr_invalidCid raw hlen hsync hcid]
      intro i hi
      simp at hi
      omega
  · rw [instr_invalidSync raw hlen hsync]
    intro i hi
    simp at hi
    omega

/-- Witness for C10 at the accepted sample frame, instantiated at the read
of the trailing checksum byte (index 6). -/
theorem decode_reads_in_bounds_witness :
    6 ∈ (process_comchip_status_packet_instr
      [0x55, 0x81, 0x00, 0x96, 0xFE, 0x00, 0xE8]).2.reads ∧ 6 ≤ 6 :=
  ⟨by decide,
   decode_reads_in_bounds [0x55, 0x81, 0x00, 0x96, 0xFE, 0x00, 0xE8]
     (by decide) 6 (by decide)⟩

end Basics
